import Mathlib

/-!
Shallow embedding of the hotel room-management repository: the Supabase
client operations (`checkIn`, `checkOut`, booking creation via the booking
form, `getAutoCheckoutLogs`) and the SQL function `auto_checkout_rooms`
from the migration file.

Modelling conventions:
* timestamps (`timestamptz`) are instants in seconds, modelled as `Nat`;
  `DATE(t)` / `CURRENT_DATE` extraction is `currentDate t = t / 86400`;
* calendar `date` columns (`check_in_date`, `check_out_date`) are day
  numbers, comparable to `currentDate` of an instant;
* uuid keys are modelled as `Nat` ids;
* presentation-only columns (guest name/email/phone, room number, room
  type, amenities, payment status, `created_at`/`updated_at` bookkeeping
  on rooms and bookings) are omitted: no modelled operation reads them;
* a Supabase `update ... select().single()` call errors when the filter
  matches no row and otherwise returns the updated row; the client code
  `throw`s that error, modelled with `Except String`;
* the room-status update inside `checkIn`/`checkOut` is issued without
  checking its result in the source, so whether that second write reaches
  the store is an environment choice, modelled by the `roomWriteOk`
  parameter (`true` = the write lands, `false` = it fails silently).
-/

inductive RoomStatus where
  | available
  | occupied
  | maintenance
  | cleaning
deriving DecidableEq, Repr

inductive BookingStatus where
  | confirmed
  | checked_in
  | checked_out
  | cancelled
deriving DecidableEq, Repr

structure Room where
  id : Nat
  hotel_id : Nat
  status : RoomStatus
  last_checkout : Option Nat
deriving DecidableEq, Repr

structure Booking where
  id : Nat
  hotel_id : Nat
  room_id : Nat
  check_in_date : Nat
  check_out_date : Nat
  actual_check_in : Option Nat
  actual_check_out : Option Nat
  status : BookingStatus
  total_amount : Int
  auto_checkout : Bool
deriving DecidableEq, Repr

structure AutoCheckoutLog where
  hotel_id : Nat
  room_id : Nat
  booking_id : Option Nat
  checkout_time : Nat
  reason : String
  created_at : Nat
deriving DecidableEq, Repr

structure RoomStatusHistory where
  room_id : Nat
  old_status : String
  new_status : String
  change_reason : String
  created_at : Nat
deriving DecidableEq, Repr

structure DB where
  rooms : List Room
  bookings : List Booking
  auto_checkout_logs : List AutoCheckoutLog
  room_status_history : List RoomStatusHistory
deriving DecidableEq, Repr

instance {ε α : Type} [DecidableEq ε] [DecidableEq α] : DecidableEq (Except ε α) := fun x y =>
  match x, y with
  | Except.error e, Except.error f => decidable_of_iff (e = f) (by simp)
  | Except.error _, Except.ok _ => isFalse (fun h => Except.noConfusion h)
  | Except.ok _, Except.error _ => isFalse (fun h => Except.noConfusion h)
  | Except.ok a, Except.ok b => decidable_of_iff (a = b) (by simp)

/-- `DATE(t)` of an instant, and `CURRENT_DATE` when `t` is `now()`. -/
def currentDate (t : Nat) : Nat := t / 86400

/-- The `WHERE` clause of the booking `UPDATE` in `auto_checkout_rooms`:
`status = 'checked_in' AND check_out_date <= CURRENT_DATE`. -/
def expiredSel (now : Nat) (b : Booking) : Bool :=
  decide (b.status = BookingStatus.checked_in ∧ b.check_out_date ≤ currentDate now)

/-- The `SET` clause of the booking `UPDATE` in `auto_checkout_rooms`,
applied to rows matched by `expiredSel`. -/
def reclaimBooking (now : Nat) (b : Booking) : Booking :=
  if expiredSel now b then
    { b with status := BookingStatus.checked_out
           , actual_check_out := some now
           , auto_checkout := true }
  else b

/-- The booking filter shared by the room `UPDATE`, the `auto_checkout_logs`
`INSERT` and implicitly statement order in `auto_checkout_rooms`:
`status = 'checked_out' AND auto_checkout = true AND DATE(actual_check_out) = CURRENT_DATE`.
`DATE(NULL) = CURRENT_DATE` is not true in SQL, matching `Option.map` here. -/
def autoSelB (now : Nat) (b : Booking) : Bool :=
  decide (b.status = BookingStatus.checked_out ∧ b.auto_checkout = true ∧
    b.actual_check_out.map currentDate = some (currentDate now))

/-- The plpgsql function `auto_checkout_rooms()` from the migration: four
statements run in order against the same snapshot-free session, so each
statement sees the previous statement's writes. -/
def auto_checkout_rooms (now : Nat) (db : DB) : DB :=
  let bookings1 := db.bookings.map (reclaimBooking now)
  let rooms1 := db.rooms.map (fun r =>
    if bookings1.any (fun b => b.room_id == r.id && autoSelB now b) then
      { r with status := RoomStatus.available, last_checkout := some now }
    else r)
  let newLogs := (bookings1.filter (autoSelB now)).map (fun b =>
    { hotel_id := b.hotel_id
      room_id := b.room_id
      booking_id := some b.id
      checkout_time := now
      reason := "daily_auto_checkout_10am"
      created_at := now : AutoCheckoutLog })
  let newHist := (rooms1.filter (fun r =>
      decide (r.status = RoomStatus.available ∧
        r.last_checkout.map currentDate = some (currentDate now)))).map (fun r =>
    { room_id := r.id
      old_status := "occupied"
      new_status := "available"
      change_reason := "auto_checkout_daily_10am"
      created_at := now : RoomStatusHistory })
  { rooms := rooms1
    bookings := bookings1
    auto_checkout_logs := db.auto_checkout_logs ++ newLogs
    room_status_history := db.room_status_history ++ newHist }

/-- `bookingAPI.checkIn`: unconditionally updates the booking row to
`checked_in` with `actual_check_in = now`, throwing only when the id
matches no row; then fires a room update to `occupied` whose result the
source never checks (`roomWriteOk` models whether that write lands). -/
def checkIn (now : Nat) (roomWriteOk : Bool) (db : DB) (bookingId : Nat) :
    Except String (DB × Booking) :=
  match db.bookings.find? (fun b => b.id == bookingId) with
  | none => Except.error "PGRST116"
  | some b =>
    let b1 := { b with status := BookingStatus.checked_in, actual_check_in := some now }
    let bookings1 := db.bookings.map (fun x =>
      if x.id == bookingId then
        { x with status := BookingStatus.checked_in, actual_check_in := some now }
      else x)
    let rooms1 :=
      if roomWriteOk then
        db.rooms.map (fun r =>
          if r.id == b1.room_id then { r with status := RoomStatus.occupied } else r)
      else db.rooms
    Except.ok ({ db with bookings := bookings1, rooms := rooms1 }, b1)

/-- `bookingAPI.checkOut` (manual): unconditionally updates the booking row
to `checked_out` with `actual_check_out = now` (it does not touch
`auto_checkout`), throwing only when the id matches no row; then fires a
room update to `available` with `last_checkout = now` whose result the
source never checks. -/
def checkOut (now : Nat) (roomWriteOk : Bool) (db : DB) (bookingId : Nat) :
    Except String (DB × Booking) :=
  match db.bookings.find? (fun b => b.id == bookingId) with
  | none => Except.error "PGRST116"
  | some b =>
    let b1 := { b with status := BookingStatus.checked_out, actual_check_out := some now }
    let bookings1 := db.bookings.map (fun x =>
      if x.id == bookingId then
        { x with status := BookingStatus.checked_out, actual_check_out := some now }
      else x)
    let rooms1 :=
      if roomWriteOk then
        db.rooms.map (fun r =>
          if r.id == b1.room_id then
            { r with status := RoomStatus.available, last_checkout := some now }
          else r)
      else db.rooms
    Except.ok ({ db with bookings := bookings1, rooms := rooms1 }, b1)

/-- `BookingSystem.handleBookingSubmit` + `bookingAPI.createBooking`: the
form composes a row with `status: 'confirmed'` and the entered dates and
computed total, and `createBooking` inserts it as-is; neither layer
validates the dates or the amount. `auto_checkout` takes its column
default `false`; `newId` models the generated primary key. -/
def handleBookingSubmit (db : DB) (newId hotelId roomId : Nat)
    (checkInDate checkOutDate : Nat) (totalAmount : Int) : DB × Booking :=
  let b : Booking :=
    { id := newId
      hotel_id := hotelId
      room_id := roomId
      check_in_date := checkInDate
      check_out_date := checkOutDate
      actual_check_in := none
      actual_check_out := none
      status := BookingStatus.confirmed
      total_amount := totalAmount
      auto_checkout := false }
  ({ db with bookings := db.bookings ++ [b] }, b)

/-- Ordering comparator used by `order('created_at', { ascending: false })`:
descending insertion of one element. -/
def insertByCreatedDesc (x : AutoCheckoutLog) :
    List AutoCheckoutLog → List AutoCheckoutLog
  | [] => [x]
  | y :: ys =>
    if y.created_at ≤ x.created_at then x :: y :: ys
    else y :: insertByCreatedDesc x ys

/-- Descending insertion sort on `created_at`, modelling the store's
`ORDER BY created_at DESC`. -/
def sortByCreatedDesc : List AutoCheckoutLog → List AutoCheckoutLog
  | [] => []
  | x :: xs => insertByCreatedDesc x (sortByCreatedDesc xs)

/-- `autoCheckoutAPI.getAutoCheckoutLogs`: filter the log table by
`hotel_id`, order by `created_at` descending, `limit(50)`. -/
def getAutoCheckoutLogs (db : DB) (hotelId : Nat) : List AutoCheckoutLog :=
  (sortByCreatedDesc (db.auto_checkout_logs.filter
    (fun l => l.hotel_id == hotelId))).take 50

/-- Number of bookings in `checked_in` status referencing a given room. -/
def checkedInCount (db : DB) (roomId : Nat) : Nat :=
  (db.bookings.filter (fun b => b.room_id == roomId &&
    b.status == BookingStatus.checked_in)).length

/-- The Room/Booking consistency invariant of the spec: a room is
`occupied` iff exactly one booking referencing it is `checked_in`. -/
def roomInvariantB (db : DB) : Bool :=
  db.rooms.all (fun r =>
    decide ((r.status = RoomStatus.occupied) ↔ checkedInCount db r.id = 1))

/-! Projection lemmas unfolding `auto_checkout_rooms` statement by statement. -/

theorem auto_checkout_rooms_bookings (now : Nat) (db : DB) :
    (auto_checkout_rooms now db).bookings = db.bookings.map (reclaimBooking now) := rfl

theorem auto_checkout_rooms_rooms (now : Nat) (db : DB) :
    (auto_checkout_rooms now db).rooms = db.rooms.map (fun r =>
      if (db.bookings.map (reclaimBooking now)).any
          (fun b => b.room_id == r.id && autoSelB now b) then
        { r with status := RoomStatus.available, last_checkout := some now }
      else r) := rfl

/-! Concrete database states used to evaluate the operations. -/

/-- One occupied room with one checked-in booking expiring on day 5;
reference instant 468000 is 10:00 on day 5. -/
def c1_db0 : DB :=
  { rooms := [{ id := 1, hotel_id := 1, status := RoomStatus.occupied, last_checkout := none }]
    bookings := [{ id := 1, hotel_id := 1, room_id := 1, check_in_date := 4, check_out_date := 5
                   actual_check_in := some 403200, actual_check_out := none
                   status := BookingStatus.checked_in, total_amount := 100, auto_checkout := false }]
    auto_checkout_logs := []
    room_status_history := [] }

/-- One available room with two confirmed bookings referencing it. -/
def c3_db0 : DB :=
  { rooms := [{ id := 1, hotel_id := 1, status := RoomStatus.available, last_checkout := none }]
    bookings := [{ id := 1, hotel_id := 1, room_id := 1, check_in_date := 5, check_out_date := 6
                   actual_check_in := none, actual_check_out := none
                   status := BookingStatus.confirmed, total_amount := 100, auto_checkout := false },
                 { id := 2, hotel_id := 1, room_id := 1, check_in_date := 5, check_out_date := 6
                   actual_check_in := none, actual_check_out := none
                   status := BookingStatus.confirmed, total_amount := 120, auto_checkout := false }]
    auto_checkout_logs := []
    room_status_history := [] }

/-- An already checked-out booking on an available room. -/
def c4_book : Booking :=
  { id := 1, hotel_id := 1, room_id := 1, check_in_date := 3, check_out_date := 4
    actual_check_in := some 300000, actual_check_out := some 380000
    status := BookingStatus.checked_out, total_amount := 100, auto_checkout := false }

def c4_db : DB :=
  { rooms := [{ id := 1, hotel_id := 1, status := RoomStatus.available, last_checkout := some 380000 }]
    bookings := [c4_book]
    auto_checkout_logs := []
    room_status_history := [] }

/-- C2: the reclamation selection predicate (the `WHERE` clause of the
booking update in `auto_checkout_rooms`) matches a booking iff it is
`checked_in` with `check_out_date <= CURRENT_DATE`; a checked-in booking
whose `check_out_date` equals the reference date is selected, and one due
the next day is not. -/
theorem c2_expiry_selection (b : Booking) (now : Nat) :
    (expiredSel now b = true ↔
      b.status = BookingStatus.checked_in ∧ b.check_out_date ≤ currentDate now) ∧
    expiredSel now { b with status := BookingStatus.checked_in
                          , check_out_date := currentDate now } = true ∧
    expiredSel now { b with status := BookingStatus.checked_in
                          , check_out_date := currentDate now + 1 } = false := by
  refine ⟨?_, ?_, ?_⟩
  · simp [expiredSel]
  · simp [expiredSel]
  · simp [expiredSel]

/-- C1 (the code is not a no-op on replay): starting from `c1_db0`, running
`auto_checkout_rooms` twice at the same instant performs zero booking
transitions the second time, yet the second run appends a second
`auto_checkout_logs` row and a second `room_status_history` row for the
same booking, because both inserts re-select every booking auto-checked-out
on the current date rather than the batch just processed. -/
theorem c1_second_run_appends_audit :
    (auto_checkout_rooms 468000 (auto_checkout_rooms 468000 c1_db0)).bookings
      = (auto_checkout_rooms 468000 c1_db0).bookings ∧
    (auto_checkout_rooms 468000 c1_db0).auto_checkout_logs.length = 1 ∧
    (auto_checkout_rooms 468000 (auto_checkout_rooms 468000 c1_db0)).auto_checkout_logs.length = 2 ∧
    (auto_checkout_rooms 468000 c1_db0).room_status_history.length = 1 ∧
    (auto_checkout_rooms 468000 (auto_checkout_rooms 468000 c1_db0)).room_status_history.length = 2 := by
  decide

/-- C3 (the invariant is not preserved): `c3_db0` satisfies the occupancy
invariant, both `checkIn` calls succeed, and the resulting state has one
room with two simultaneously checked-in bookings, falsifying the
invariant. -/
theorem c3_two_checked_in_bookings :
    roomInvariantB c3_db0 = true ∧
    ((checkIn 450000 true c3_db0 1).bind (fun p => checkIn 450000 true p.1 2)).map
      (fun p => (roomInvariantB p.1, checkedInCount p.1 1))
      = Except.ok (false, 2) := by
  decide

/-- C4 counterexample: a booking already in the terminal `checked_out`
state is moved back to `checked_in` by `checkIn`, which succeeds instead
of failing with an InvalidStateError. -/
theorem c4_backward_transition_accepted :
    c4_db.bookings.map Booking.status = [BookingStatus.checked_out] ∧
    (checkIn 450000 true c4_db 1).map (fun p => p.2.status)
      = Except.ok BookingStatus.checked_in := by
  decide

/-- C4 amended: the client performs no status validation at all — for any
existing booking, whatever its current status, `checkIn` succeeds and sets
the status to `checked_in` and `checkOut` succeeds and sets it to
`checked_out`; no InvalidStateError exists, so statuses are not
monotonic. -/
theorem c4_amended_unrestricted_transitions (db : DB) (now bookingId : Nat) (b : Booking)
    (h : db.bookings.find? (fun x => x.id == bookingId) = some b) :
    (∃ db1, checkIn now true db bookingId = Except.ok (db1,
      { b with status := BookingStatus.checked_in, actual_check_in := some now })) ∧
    (∃ db2, checkOut now true db bookingId = Except.ok (db2,
      { b with status := BookingStatus.checked_out, actual_check_out := some now })) := by
  constructor
  · refine ⟨{ db with
        bookings := db.bookings.map (fun x =>
          if x.id == bookingId then
            { x with status := BookingStatus.checked_in, actual_check_in := some now }
          else x)
        rooms := db.rooms.map (fun r =>
          if r.id == b.room_id then { r with status := RoomStatus.occupied } else r) }, ?_⟩
    simp [checkIn, h]
  · refine ⟨{ db with
        bookings := db.bookings.map (fun x =>
          if x.id == bookingId then
            { x with status := BookingStatus.checked_out, actual_check_out := some now }
          else x)
        rooms := db.rooms.map (fun r =>
          if r.id == b.room_id then
            { r with status := RoomStatus.available, last_checkout := some now }
          else r) }, ?_⟩
    simp [checkOut, h]

/-- Witness for `c4_amended_unrestricted_transitions` at the concrete
checked-out booking of `c4_db`. -/
theorem c4_amended_unrestricted_transitions_witness :
    (∃ db1, checkIn 450000 true c4_db 1 = Except.ok (db1,
      { c4_book with status := BookingStatus.checked_in, actual_check_in := some 450000 })) ∧
    (∃ db2, checkOut 450000 true c4_db 1 = Except.ok (db2,
      { c4_book with status := BookingStatus.checked_out, actual_check_out := some 450000 })) :=
  c4_amended_unrestricted_transitions c4_db 450000 1 c4_book (by decide)

/-- A cancelled booking on an available room. -/
def c5_book : Booking :=
  { id := 7, hotel_id := 1, room_id := 2, check_in_date := 5, check_out_date := 6
    actual_check_in := none, actual_check_out := none
    status := BookingStatus.cancelled, total_amount := 100, auto_checkout := false }

def c5_db : DB :=
  { rooms := [{ id := 2, hotel_id := 1, status := RoomStatus.available, last_checkout := none }]
    bookings := [c5_book]
    auto_checkout_logs := []
    room_status_history := [] }

/-- C5 counterexample: `checkIn` on a cancelled (not confirmed) booking
succeeds — no InvalidStateError — and mutates both the booking (to
`checked_in`) and the room (to `occupied`). -/
theorem c5_checkin_accepts_non_confirmed :
    c5_db.bookings.map Booking.status = [BookingStatus.cancelled] ∧
    (checkIn 450000 true c5_db 7).map
      (fun p => (p.2.status, p.1.rooms.map Room.status))
      = Except.ok (BookingStatus.checked_in, [RoomStatus.occupied]) := by
  decide

/-- C5 amended: `checkIn` succeeds for every existing booking regardless of
its status: it sets the booking to `checked_in` with
`actual_check_in = now` and writes the referenced room to `occupied`;
it never raises an InvalidStateError or ConflictError (the only failure is
an unknown booking id). -/
theorem c5_amended_checkin_unconditional (db : DB) (now bookingId : Nat) (b : Booking)
    (h : db.bookings.find? (fun x => x.id == bookingId) = some b) :
    checkIn now true db bookingId = Except.ok
      ({ db with
          bookings := db.bookings.map (fun x =>
            if x.id == bookingId then
              { x with status := BookingStatus.checked_in, actual_check_in := some now }
            else x)
          rooms := db.rooms.map (fun r =>
            if r.id == b.room_id then { r with status := RoomStatus.occupied } else r) },
       { b with status := BookingStatus.checked_in, actual_check_in := some now }) := by
  simp [checkIn, h]

/-- Witness for `c5_amended_checkin_unconditional` at the concrete
cancelled booking of `c5_db`. -/
theorem c5_amended_checkin_unconditional_witness :
    checkIn 450000 true c5_db 7 = Except.ok
      ({ c5_db with
          bookings := c5_db.bookings.map (fun x =>
            if x.id == 7 then
              { x with status := BookingStatus.checked_in, actual_check_in := some 450000 }
            else x)
          rooms := c5_db.rooms.map (fun r =>
            if r.id == c5_book.room_id then { r with status := RoomStatus.occupied } else r) },
       { c5_book with status := BookingStatus.checked_in, actual_check_in := some 450000 }) :=
  c5_amended_checkin_unconditional c5_db 450000 7 c5_book (by decide)

/-- A checked-in booking whose `auto_checkout` flag is `true`. -/
def c6_book : Booking :=
  { id := 9, hotel_id := 1, room_id := 3, check_in_date := 4, check_out_date := 5
    actual_check_in := some 400000, actual_check_out := none
    status := BookingStatus.checked_in, total_amount := 100, auto_checkout := true }

def c6_db : DB :=
  { rooms := [{ id := 3, hotel_id := 1, status := RoomStatus.occupied, last_checkout := none }]
    bookings := [c6_book]
    auto_checkout_logs := []
    room_status_history := [] }

/-- C6 counterexample: manual `checkOut` of a checked-in booking whose
`auto_checkout` flag is `true` returns the booking with `auto_checkout`
still `true`: the source's update does not write `auto_checkout = false`. -/
theorem c6_checkout_keeps_auto_flag :
    c6_db.bookings.map (fun b => (b.status, b.auto_checkout))
      = [(BookingStatus.checked_in, true)] ∧
    (checkOut 450000 true c6_db 9).map (fun p => (p.2.status, p.2.auto_checkout))
      = Except.ok (BookingStatus.checked_out, true) := by
  decide

/-- C6 amended: for a checked-in booking, manual `checkOut` sets
`status = checked_out` and `actual_check_out = now`, leaves the
`auto_checkout` flag unchanged (it does not reset it to `false`), and
writes the referenced room to `available` with `last_checkout = now`. -/
theorem c6_amended_checkout_effects (db : DB) (now bookingId : Nat) (b : Booking)
    (h : db.bookings.find? (fun x => x.id == bookingId) = some b)
    (_hst : b.status = BookingStatus.checked_in) :
    checkOut now true db bookingId = Except.ok
      ({ db with
          bookings := db.bookings.map (fun x =>
            if x.id == bookingId then
              { x with status := BookingStatus.checked_out, actual_check_out := some now }
            else x)
          rooms := db.rooms.map (fun r =>
            if r.id == b.room_id then
              { r with status := RoomStatus.available, last_checkout := some now }
            else r) },
       { b with status := BookingStatus.checked_out, actual_check_out := some now }) ∧
    ({ b with status := BookingStatus.checked_out,
              actual_check_out := some now } : Booking).auto_checkout = b.auto_checkout := by
  exact ⟨by simp [checkOut, h], rfl⟩

/-- Witness for `c6_amended_checkout_effects` at the concrete checked-in
booking of `c6_db`. -/
theorem c6_amended_checkout_effects_witness :
    checkOut 460000 true c6_db 9 = Except.ok
      ({ c6_db with
          bookings := c6_db.bookings.map (fun x =>
            if x.id == 9 then
              { x with status := BookingStatus.checked_out, actual_check_out := some 460000 }
            else x)
          rooms := c6_db.rooms.map (fun r =>
            if r.id == c6_book.room_id then
              { r with status := RoomStatus.available, last_checkout := some 460000 }
            else r) },
       { c6_book with status := BookingStatus.checked_out, actual_check_out := some 460000 }) ∧
    ({ c6_book with status := BookingStatus.checked_out,
                    actual_check_out := some 460000 } : Booking).auto_checkout
      = c6_book.auto_checkout :=
  c6_amended_checkout_effects c6_db 460000 9 c6_book (by decide) (by decide)

/-- A room under maintenance whose checked-in booking expires on day 5. -/
def c7_room : Room :=
  { id := 4, hotel_id := 1, status := RoomStatus.maintenance, last_checkout := none }

def c7_book : Booking :=
  { id := 11, hotel_id := 1, room_id := 4, check_in_date := 4, check_out_date := 5
    actual_check_in := some 400000, actual_check_out := none
    status := BookingStatus.checked_in, total_amount := 100, auto_checkout := false }

def c7_db : DB :=
  { rooms := [c7_room]
    bookings := [c7_book]
    auto_checkout_logs := []
    room_status_history := [] }

/-- C7 counterexample: the room `UPDATE` of `auto_checkout_rooms` has no
`status = 'occupied'` guard — a room in `maintenance` whose booking
expires is flipped to `available` by the reclamation pass. -/
theorem c7_maintenance_room_clobbered :
    c7_db.rooms.map Room.status = [RoomStatus.maintenance] ∧
    (auto_checkout_rooms 468000 c7_db).rooms.map Room.status
      = [RoomStatus.available] := by
  decide

/-- C7 amended: during reclamation, the room referenced by an expired
booking is transitioned to `available` with `last_checkout` set to the
reference time unconditionally, whatever its current status (occupied,
maintenance, or cleaning alike). -/
theorem c7_amended_room_update_unconditional (db : DB) (now : Nat) (b : Booking) (r : Room)
    (hb : b ∈ db.bookings) (hr : r ∈ db.rooms)
    (hsel : expiredSel now b = true) (hid : b.room_id = r.id) :
    { r with status := RoomStatus.available, last_checkout := some now }
      ∈ (auto_checkout_rooms now db).rooms := by
  have hb1 : reclaimBooking now b ∈ db.bookings.map (reclaimBooking now) :=
    List.mem_map_of_mem _ hb
  have hcond : (db.bookings.map (reclaimBooking now)).any
      (fun x => x.room_id == r.id && autoSelB now x) = true := by
    refine List.any_eq_true.mpr ⟨reclaimBooking now b, hb1, ?_⟩
    simp [reclaimBooking, hsel, autoSelB, hid]
  rw [auto_checkout_rooms_rooms]
  have hmem := List.mem_map_of_mem (f := fun r : Room =>
    if (db.bookings.map (reclaimBooking now)).any
        (fun b => b.room_id == r.id && autoSelB now b) then
      { r with status := RoomStatus.available, last_checkout := some now }
    else r) hr
  simpa [hcond] using hmem

/-- Witness for `c7_amended_room_update_unconditional` at the concrete
maintenance room and expired booking of `c7_db`. -/
theorem c7_amended_room_update_unconditional_witness :
    { c7_room with status := RoomStatus.available, last_checkout := some 468000 }
      ∈ (auto_checkout_rooms 468000 c7_db).rooms :=
  c7_amended_room_update_unconditional c7_db 468000 c7_book c7_room
    (by decide) (by decide) (by decide) (by decide)

def c8_db : DB :=
  { rooms := [], bookings := [], auto_checkout_logs := [], room_status_history := [] }

/-- C8 counterexample: a submission whose check-in date (day 5) is after
its check-out date (day 3) and whose total is 0 is not rejected: the
booking is created anyway, with status `confirmed`. -/
theorem c8_invalid_input_still_creates_booking :
    ¬ (5 < 3) ∧ ¬ ((0 : Int) > 0) ∧
    (handleBookingSubmit c8_db 1 1 1 5 3 0).2.status = BookingStatus.confirmed ∧
    (handleBookingSubmit c8_db 1 1 1 5 3 0).1.bookings.length = 1 := by
  decide

/-- C8 amended: booking creation performs no validation at all — for any
dates and any amount it appends exactly the submitted booking, which is
always initialized with status `confirmed`. -/
theorem c8_amended_no_validation (db : DB) (newId hotelId roomId : Nat)
    (checkInDate checkOutDate : Nat) (totalAmount : Int) :
    (handleBookingSubmit db newId hotelId roomId checkInDate checkOutDate totalAmount).2.status
      = BookingStatus.confirmed ∧
    (handleBookingSubmit db newId hotelId roomId checkInDate checkOutDate totalAmount).1.bookings
      = db.bookings ++
        [(handleBookingSubmit db newId hotelId roomId checkInDate checkOutDate totalAmount).2] := by
  exact ⟨rfl, rfl⟩

/-! Sorting lemmas for the log query. -/

theorem mem_insertByCreatedDesc {x z : AutoCheckoutLog} {l : List AutoCheckoutLog} :
    z ∈ insertByCreatedDesc x l ↔ z = x ∨ z ∈ l := by
  induction l with
  | nil => simp [insertByCreatedDesc]
  | cons y ys ih =>
    simp only [insertByCreatedDesc]
    split <;> simp [List.mem_cons, ih] <;> tauto

theorem pairwise_insertByCreatedDesc {x : AutoCheckoutLog} {l : List AutoCheckoutLog}
    (h : l.Pairwise (fun a b => b.created_at ≤ a.created_at)) :
    (insertByCreatedDesc x l).Pairwise (fun a b => b.created_at ≤ a.created_at) := by
  induction l with
  | nil => simp [insertByCreatedDesc]
  | cons y ys ih =>
    rcases List.pairwise_cons.mp h with ⟨hy, hys⟩
    simp only [insertByCreatedDesc]
    split
    · rename_i hle
      refine List.pairwise_cons.mpr ⟨?_, h⟩
      intro z hz
      rcases List.mem_cons.mp hz with rfl | hz2
      · exact hle
      · exact le_trans (hy z hz2) hle
    · rename_i hgt
      refine List.pairwise_cons.mpr ⟨?_, ih hys⟩
      intro z hz
      rcases mem_insertByCreatedDesc.mp hz with rfl | hz2
      · omega
      · exact hy z hz2

theorem mem_sortByCreatedDesc {z : AutoCheckoutLog} {l : List AutoCheckoutLog} :
    z ∈ sortByCreatedDesc l ↔ z ∈ l := by
  induction l with
  | nil => simp [sortByCreatedDesc]
  | cons x xs ih => simp [sortByCreatedDesc, mem_insertByCreatedDesc, ih]

theorem pairwise_sortByCreatedDesc (l : List AutoCheckoutLog) :
    (sortByCreatedDesc l).Pairwise (fun a b => b.created_at ≤ a.created_at) := by
  induction l with
  | nil => simp [sortByCreatedDesc]
  | cons x xs ih => exact pairwise_insertByCreatedDesc ih

theorem perm_insertByCreatedDesc (x : AutoCheckoutLog) (l : List AutoCheckoutLog) :
    (insertByCreatedDesc x l).Perm (x :: l) := by
  induction l with
  | nil => exact List.Perm.refl _
  | cons y ys ih =>
    simp only [insertByCreatedDesc]
    split
    · exact List.Perm.refl _
    · exact (List.Perm.cons y ih).trans (List.Perm.swap x y ys)

theorem perm_sortByCreatedDesc (l : List AutoCheckoutLog) :
    (sortByCreatedDesc l).Perm l := by
  induction l with
  | nil => exact List.Perm.refl _
  | cons x xs ih =>
    exact (perm_insertByCreatedDesc x (sortByCreatedDesc xs)).trans (List.Perm.cons x ih)

/-- C9: `getAutoCheckoutLogs` returns exactly the requested hotel's log
rows capped at 50, most recent first: every returned row belongs to the
hotel, the result has `min 50 (number of the hotel's rows)` entries and is
sorted by `created_at` descending, it is drawn from the hotel's rows
without invention or duplication (`Subperm`), it is a permutation of all
of the hotel's rows whenever the hotel has at most 50, and any hotel row
left out is no more recent than every returned row (top-50 by recency). -/
theorem c9_logs_query (db : DB) (hotelId : Nat) :
    (∀ l ∈ getAutoCheckoutLogs db hotelId, l.hotel_id = hotelId) ∧
    (getAutoCheckoutLogs db hotelId).length ≤ 50 ∧
    (getAutoCheckoutLogs db hotelId).Pairwise
      (fun a b => b.created_at ≤ a.created_at) ∧
    (getAutoCheckoutLogs db hotelId).length
      = min 50 (db.auto_checkout_logs.filter (fun x => x.hotel_id == hotelId)).length ∧
    List.Subperm (getAutoCheckoutLogs db hotelId)
      (db.auto_checkout_logs.filter (fun x => x.hotel_id == hotelId)) ∧
    ((db.auto_checkout_logs.filter (fun x => x.hotel_id == hotelId)).length ≤ 50 →
      (getAutoCheckoutLogs db hotelId).Perm
        (db.auto_checkout_logs.filter (fun x => x.hotel_id == hotelId))) ∧
    (∀ z ∈ db.auto_checkout_logs.filter (fun x => x.hotel_id == hotelId),
      z ∉ getAutoCheckoutLogs db hotelId →
      ∀ y ∈ getAutoCheckoutLogs db hotelId, z.created_at ≤ y.created_at) := by
  refine ⟨?_, ?_, ?_, ?_, ?_, ?_, ?_⟩
  · intro l hl
    have h1 : l ∈ sortByCreatedDesc
        (db.auto_checkout_logs.filter (fun x => x.hotel_id == hotelId)) :=
      (List.take_sublist 50 _).subset hl
    have h2 := (List.mem_filter.mp (mem_sortByCreatedDesc.mp h1)).2
    simpa using h2
  · exact List.length_take_le 50 _
  · exact List.Pairwise.sublist (List.take_sublist 50 _) (pairwise_sortByCreatedDesc _)
  · simp [getAutoCheckoutLogs, List.length_take, (perm_sortByCreatedDesc _).length_eq]
  · exact ((List.take_sublist 50 _).subperm).trans (perm_sortByCreatedDesc _).subperm
  · intro hle
    have hlen : (sortByCreatedDesc
        (db.auto_checkout_logs.filter (fun x => x.hotel_id == hotelId))).length ≤ 50 := by
      rw [(perm_sortByCreatedDesc _).length_eq]
      exact hle
    rw [getAutoCheckoutLogs, List.take_of_length_le hlen]
    exact perm_sortByCreatedDesc _
  · intro z hz hznot y hy
    have hzs : z ∈ sortByCreatedDesc
        (db.auto_checkout_logs.filter (fun x => x.hotel_id == hotelId)) :=
      mem_sortByCreatedDesc.mpr hz
    have hp := pairwise_sortByCreatedDesc
      (db.auto_checkout_logs.filter (fun x => x.hotel_id == hotelId))
    rw [← List.take_append_drop 50 (sortByCreatedDesc
      (db.auto_checkout_logs.filter (fun x => x.hotel_id == hotelId)))] at hp hzs
    rcases List.pairwise_append.mp hp with ⟨-, -, hrel⟩
    rcases List.mem_append.mp hzs with hzt | hzd
    · exact absurd hzt hznot
    · exact hrel y hy z hzd

/-- Logs of two hotels with out-of-order creation times. -/
def c9_db : DB :=
  { rooms := []
    bookings := []
    auto_checkout_logs :=
      [{ hotel_id := 1, room_id := 1, booking_id := some 1, checkout_time := 100
         reason := "daily_auto_checkout_10am", created_at := 100 },
       { hotel_id := 2, room_id := 9, booking_id := none, checkout_time := 250
         reason := "daily_auto_checkout_10am", created_at := 250 },
       { hotel_id := 1, room_id := 2, booking_id := some 2, checkout_time := 300
         reason := "daily_auto_checkout_10am", created_at := 300 },
       { hotel_id := 1, room_id := 1, booking_id := none, checkout_time := 200
         reason := "daily_auto_checkout_10am", created_at := 200 }]
    room_status_history := [] }

/-- Witness for `c9_logs_query` at the concrete log table `c9_db`. -/
theorem c9_logs_query_witness :
    (∀ l ∈ getAutoCheckoutLogs c9_db 1, l.hotel_id = 1) ∧
    (getAutoCheckoutLogs c9_db 1).length ≤ 50 ∧
    (getAutoCheckoutLogs c9_db 1).Pairwise
      (fun a b => b.created_at ≤ a.created_at) ∧
    (getAutoCheckoutLogs c9_db 1).length
      = min 50 (c9_db.auto_checkout_logs.filter (fun x => x.hotel_id == 1)).length ∧
    List.Subperm (getAutoCheckoutLogs c9_db 1)
      (c9_db.auto_checkout_logs.filter (fun x => x.hotel_id == 1)) ∧
    ((c9_db.auto_checkout_logs.filter (fun x => x.hotel_id == 1)).length ≤ 50 →
      (getAutoCheckoutLogs c9_db 1).Perm
        (c9_db.auto_checkout_logs.filter (fun x => x.hotel_id == 1))) ∧
    (∀ z ∈ c9_db.auto_checkout_logs.filter (fun x => x.hotel_id == 1),
      z ∉ getAutoCheckoutLogs c9_db 1 →
      ∀ y ∈ getAutoCheckoutLogs c9_db 1, z.created_at ≤ y.created_at) :=
  c9_logs_query c9_db 1

/-- C10: when the un-checked room write inside `checkIn` / `checkOut`
fails (`roomWriteOk = false`), the operation still returns success with
the transitioned booking while every room is left unchanged. -/
theorem c10_room_write_failure_silent (db : DB) (now bookingId : Nat) (b : Booking)
    (h : db.bookings.find? (fun x => x.id == bookingId) = some b) :
    checkIn now false db bookingId = Except.ok
      ({ db with
          bookings := db.bookings.map (fun x =>
            if x.id == bookingId then
              { x with status := BookingStatus.checked_in, actual_check_in := some now }
            else x) },
       { b with status := BookingStatus.checked_in, actual_check_in := some now }) ∧
    checkOut now false db bookingId = Except.ok
      ({ db with
          bookings := db.bookings.map (fun x =>
            if x.id == bookingId then
              { x with status := BookingStatus.checked_out, actual_check_out := some now }
            else x) },
       { b with status := BookingStatus.checked_out, actual_check_out := some now }) := by
  constructor
  · simp [checkIn, h]
  · simp [checkOut, h]

/-- A confirmed booking on an occupied-elsewhere store, used to witness the
silent room-write failure. -/
def c10_book : Booking :=
  { id := 3, hotel_id := 1, room_id := 5, check_in_date := 5, check_out_date := 6
    actual_check_in := none, actual_check_out := none
    status := BookingStatus.confirmed, total_amount := 100, auto_checkout := false }

def c10_db : DB :=
  { rooms := [{ id := 5, hotel_id := 1, status := RoomStatus.available, last_checkout := none }]
    bookings := [c10_book]
    auto_checkout_logs := []
    room_status_history := [] }

/-- Witness for `c10_room_write_failure_silent` at the concrete booking of
`c10_db`: both calls report success and `c10_db.rooms` is untouched. -/
theorem c10_room_write_failure_silent_witness :
    checkIn 450000 false c10_db 3 = Except.ok
      ({ c10_db with
          bookings := c10_db.bookings.map (fun x =>
            if x.id == 3 then
              { x with status := BookingStatus.checked_in, actual_check_in := some 450000 }
            else x) },
       { c10_book with status := BookingStatus.checked_in, actual_check_in := some 450000 }) ∧
    checkOut 450000 false c10_db 3 = Except.ok
      ({ c10_db with
          bookings := c10_db.bookings.map (fun x =>
            if x.id == 3 then
              { x with status := BookingStatus.checked_out, actual_check_out := some 450000 }
            else x) },
       { c10_book with status := BookingStatus.checked_out, actual_check_out := some 450000 }) :=
  c10_room_write_failure_silent c10_db 450000 3 c10_book (by decide)
